import Mathlib

/-!
Shallow embedding of the AniverseChat chat backend: the data model
(shared/schema.ts), the primary Express route handlers (server/routes.ts)
and the serverless/in-memory Netlify variant (the unnamed serverless
function file).  The upstream Perplexity HTTP call is modelled by an
explicit outcome value (status plus optionally-present completion text, or
a thrown fetch error); everything else is translated directly from the
TypeScript.
-/

namespace Aniverse

/-- A chat message: row of the `messages` table (shared/schema.ts) and the
message objects of the serverless variant. -/
structure Message where
  id : String
  sessionId : String
  role : String
  content : String
  deriving Repr, DecidableEq

/-- A chat session: row of the `chatSessions` table (shared/schema.ts). -/
structure ChatSession where
  id : String
  userId : String
  title : String
  deriving Repr, DecidableEq

/-- An entry of the message array sent to the Perplexity chat-completions
API (`PerplexityMessage` in server/routes.ts). -/
structure PerplexityMessage where
  role : String
  content : String
  deriving Repr, DecidableEq

/-- The JSON body `\x7b message, sessionId \x7d` answered by the message-posting
route (`ChatResponse` in shared/schema.ts). -/
structure ChatResponse where
  message : String
  sessionId : String
  deriving Repr, DecidableEq

/-- How the single fetch to the upstream API can fail from the caller's
point of view: an AbortError (the timeout fired), an error whose message
mentions fetch (network failure; the serverless variant distinguishes it),
or any other thrown error. -/
inductive FetchError where
  | abort
  | fetchFailure
  | other
  deriving Repr, DecidableEq

/-- Outcome of the single upstream fetch: an HTTP response carrying its
status and the optionally-present `choices[0].message.content` of the
parsed JSON body, or a thrown error. -/
inductive UpstreamResult where
  | response (status : Nat) (content : Option String)
  | fetchFailed (e : FetchError)
  deriving Repr, DecidableEq

/-- `response.ok` of the fetch API: status in [200, 300). -/
def respOk (status : Nat) : Bool :=
  decide (200 ≤ status ∧ status < 300)

/-- JavaScript `array.slice(-n)` for `n > 0`: the trailing
`min n l.length` elements of the array. -/
def sliceLast (n : Nat) (l : List α) : List α :=
  l.drop (l.length - n)

/-- The fixed system instruction sent as the first entry of every upstream
request (identical string in both variants). -/
def systemPrompt : String :=
  "You are AniVerse AI, an intelligent assistant specialized in anime and manga. You have deep knowledge about anime series, manga titles, characters, storylines, recommendations, and the broader anime/manga culture. Provide detailed, accurate, and engaging responses about anime and manga topics. Be enthusiastic and knowledgeable while maintaining a friendly tone. Always respond to greetings like \x27hi\x27, \x27hello\x27, \x27hey\x27 in a friendly manner."

/-- The upstream request message array: the system prompt followed by the
last `n` history messages, role-tagged (routes.ts builds it with
`messages.slice(-10)`, the serverless variant with `slice(-8)`). -/
def buildPerplexityMessages (n : Nat) (history : List Message) : List PerplexityMessage :=
  ⟨"system", systemPrompt⟩ :: (sliceLast n history).map (fun m => ⟨m.role, m.content⟩)

/-- Millisecond delay handed to setTimeout before `controller.abort()` in
server/routes.ts. -/
def timeoutMsPrimary : Nat := 30000

/-- Millisecond delay handed to setTimeout before `controller.abort()` in
the serverless variant. -/
def timeoutMsNetlify : Nat := 25000

/-! ### Fixed user-facing strings of the primary variant (server/routes.ts) -/

/-- Stored when PERPLEXITY_API_KEY is unset (routes.ts). -/
def notConfiguredMsg : String :=
  "Sorry, the AI service is not configured. Please set up the PERPLEXITY_API_KEY environment variable."

/-- Generic string for an unrecognised non-2xx upstream status (routes.ts). -/
def genericUnavailableMsg : String :=
  "Sorry, I\x27m having trouble accessing my knowledge base right now. Please try again in a moment."

/-- Stored on upstream status 401 (routes.ts). -/
def authErrorMsg : String :=
  "🔑 API Authentication Error\n\nYour Perplexity API key has no credits remaining. To fix this:\n\n1. Go to https://sonar.perplexity.ai/\n2. Check your credit balance\n3. Purchase more credits or add a payment method\n4. Pro users get $5 free credits monthly\n\nNote: API keys only work with a non-zero balance."

/-- Stored on upstream status 429 (routes.ts). -/
def rateLimitMsg : String :=
  "Sorry, I\x27m receiving too many requests right now. Please try again in a moment."

/-- Stored on upstream status 400 (routes.ts). -/
def badRequestMsg : String :=
  "Sorry, there was an issue with the request format. The API model or parameters may have changed."

/-- Stored when a 2xx response lacks completion text (routes.ts). -/
def invalidResponseMsg : String :=
  "Sorry, I received an invalid response. Please try again."

/-- Stored on a non-abort fetch error (routes.ts). -/
def connectTroubleMsg : String :=
  "Sorry, I\x27m having trouble connecting right now. Please try again."

/-- Stored when the fetch is aborted by the timeout (routes.ts). -/
def tookTooLongMsg : String :=
  "The request took too long. Please try again."

/-- Error-string selection for a non-2xx upstream status in the primary
variant (the 401/429/400 cascade of routes.ts). -/
def mapStatusPrimary (status : Nat) : String :=
  if status = 401 then authErrorMsg
  else if status = 429 then rateLimitMsg
  else if status = 400 then badRequestMsg
  else genericUnavailableMsg

/-! ### Fixed user-facing strings of the serverless variant -/

/-- Stored when PERPLEXITY_API_KEY is missing or shorter than 10
characters (serverless variant). -/
def notConfiguredNetlifyMsg : String :=
  "Sorry, the AI service is not configured. Please set up your PERPLEXITY_API_KEY in Netlify environment variables."

/-- Stored when a 2xx response lacks completion text (serverless). -/
def emptyResponseNetlifyMsg : String :=
  "Sorry, I received an empty response. Please try again."

/-- Stored on upstream status 401 (serverless). -/
def authErrorNetlifyMsg : String :=
  "Sorry, there\x27s an authentication issue with the AI service. Please check your API key configuration."

/-- Stored on upstream status 429 (serverless). -/
def rateLimitNetlifyMsg : String :=
  "Sorry, I\x27m receiving too many requests right now. Please try again in a moment."

/-- Generic string for any other non-2xx upstream status (serverless). -/
def genericNetlifyMsg : String :=
  "Sorry, I\x27m having trouble accessing my knowledge base right now. Please try again in a moment."

/-- Stored when the fetch is aborted by the timeout (serverless). -/
def tookTooLongNetlifyMsg : String :=
  "Sorry, that request took too long. Please try asking again."

/-- Stored when the thrown error message mentions fetch (serverless). -/
def connectNetlifyMsg : String :=
  "Sorry, I\x27m having trouble connecting to the AI service. Please check your internet connection."

/-- Stored on any other thrown error (serverless). -/
def unexpectedNetlifyMsg : String :=
  "Sorry, an unexpected error occurred. Please try again."

/-- Error-string selection for a non-2xx upstream status in the serverless
variant: only 401 and 429 are distinguished, everything else falls to the
generic string (there is no 400 branch). -/
def mapStatusNetlify (status : Nat) : String :=
  if status = 401 then authErrorNetlifyMsg
  else if status = 429 then rateLimitNetlifyMsg
  else genericNetlifyMsg

/-- The greeting content seeded into an empty conversation by the
serverless variant's message-list route. -/
def greetingContent : String :=
  "Hello! I\x27m AniVerse AI, your anime and manga companion. What would you like to discuss today?"

/-! ### Primary-variant storage

Modelled from the spec: the durable storage backend (`./storage`, imported
by server/routes.ts but absent from the sources) per spec section 4.1 —
`getChatSession` looks a session up by id, `getMessagesBySessionId`
returns the session's messages in chronological order, `createMessage`
appends a new message, `deleteChatSession` removes the session and all its
messages.  Fresh identifiers come from a counter. -/
structure Storage where
  sessions : List ChatSession
  messages : List Message
  nextId : Nat
  deriving Repr, DecidableEq

/-- Modelled from the spec: `getChatSession(id) -> ChatSession | absent`. -/
def Storage.getChatSession (st : Storage) (id : String) : Option ChatSession :=
  st.sessions.find? (fun s => s.id == id)

/-- Modelled from the spec: `getMessagesBySessionId(id)`, the session's
messages in chronological (insertion) order. -/
def Storage.getMessagesBySessionId (st : Storage) (sessionId : String) : List Message :=
  st.messages.filter (fun m => m.sessionId == sessionId)

/-- Modelled from the spec: `createMessage(sessionId, role, content)`;
appends the new message and returns it. -/
def Storage.createMessage (st : Storage) (sessionId role content : String) :
    Storage × Message :=
  let msg : Message := ⟨toString st.nextId, sessionId, role, content⟩
  ({ st with messages := st.messages ++ [msg], nextId := st.nextId + 1 }, msg)

/-- Modelled from the spec: `deleteChatSession(id)` removes the session and
all its messages. -/
def Storage.deleteChatSession (st : Storage) (id : String) : Storage :=
  { st with
    sessions := st.sessions.filter (fun s => s.id != id),
    messages := st.messages.filter (fun m => m.sessionId != id) }

/-! ### Primary-variant route handlers (server/routes.ts) -/

/-- GET /api/chat/sessions/:sessionId/messages in the primary variant:
404 when the session is absent, otherwise 200 with the stored messages.
No greeting is seeded here. -/
def getMessagesPrimary (st : Storage) (sessionId : String) :
    Nat × Option (List Message) :=
  match st.getChatSession sessionId with
  | none => (404, none)
  | some _ => (200, some (st.getMessagesBySessionId sessionId))

/-- DELETE /api/chat/sessions/:sessionId in the primary variant: 404 when
absent, otherwise cascade delete and 200. -/
def deleteSessionPrimary (st : Storage) (sessionId : String) : Storage × Nat :=
  match st.getChatSession sessionId with
  | none => (st, 404)
  | some _ => (st.deleteChatSession sessionId, 200)

/-- The assistant text produced by the primary message-posting handler
once the user message is saved: every branch of routes.ts stores one
assistant message with this text and answers it in the JSON body.
`apiKey` is `process.env.PERPLEXITY_API_KEY` (`none` when unset). -/
def primaryAiText (apiKey : Option String) (upstream : UpstreamResult) : String :=
  match apiKey with
  | none => notConfiguredMsg
  | some _ =>
    match upstream with
    | .response status content? =>
      if respOk status then
        match content? with
        | some ai => if ai = "" then invalidResponseMsg else ai
        | none => invalidResponseMsg
      else mapStatusPrimary status
    | .fetchFailed e =>
      if e = .abort then tookTooLongMsg else connectTroubleMsg

/-- Result of one invocation of a message-posting route: the storage state
afterwards, the HTTP status, the ChatResponse body (when the route
answered 200 with one) and the message array sent upstream (`none` when no
network call was attempted). -/
structure PostOutcome where
  storage : Storage
  status : Nat
  body : Option ChatResponse
  sentRequest : Option (List PerplexityMessage)
  deriving Repr, DecidableEq

/-- POST /api/chat/sessions/:sessionId/messages in the primary variant.
`chatMessageSchema` (zod `.min(1)`) rejects exactly the empty content
string; the throw is caught by the handler's generic catch, which answers
500.  Otherwise: 404 when the session is absent; else the user message is
saved, the history window is built, and one assistant message holding
`primaryAiText` is saved and answered. -/
def postMessagePrimary (apiKey : Option String) (upstream : UpstreamResult)
    (st : Storage) (sessionId content : String) : PostOutcome :=
  if content = "" then ⟨st, 500, none, none⟩
  else
    match st.getChatSession sessionId with
    | none => ⟨st, 404, none, none⟩
    | some _ =>
      let r1 := st.createMessage sessionId "user" content
      let history := r1.1.getMessagesBySessionId sessionId
      let text := primaryAiText apiKey upstream
      let r2 := r1.1.createMessage sessionId "assistant" text
      ⟨r2.1, 200, some ⟨text, sessionId⟩,
        if apiKey.isSome then some (buildPerplexityMessages 10 history) else none⟩

/-! ### Serverless (in-memory) variant -/

/-- The `conversations` JavaScript Map of the serverless variant: an
insertion-ordered association list from session id to message list. -/
def mapGet : List (String × List Message) → String → Option (List Message)
  | [], _ => none
  | (k2, v) :: rest, k => if k2 = k then some v else mapGet rest k

/-- `Map.set`: replaces the value in place when the key exists, appends a
new entry otherwise. -/
def mapSet : List (String × List Message) → String → List Message →
    List (String × List Message)
  | [], k, v => [(k, v)]
  | (k2, v2) :: rest, k, v =>
    if k2 = k then (k, v) :: rest else (k2, v2) :: mapSet rest k v

/-- `Map.delete`: removes the entry for the key. -/
def mapDelete : List (String × List Message) → String →
    List (String × List Message)
  | [], _ => []
  | (k2, v2) :: rest, k =>
    if k2 = k then mapDelete rest k else (k2, v2) :: mapDelete rest k

/-- State of the serverless function instance: the conversations map plus
a counter supplying the `crypto.randomUUID()` values. -/
structure NetlifyState where
  conversations : List (String × List Message)
  nextId : Nat
  deriving Repr, DecidableEq

/-- POST /api/chat/sessions in the serverless variant: makes a session
object with a fresh id, initialises its conversation to the empty list,
answers 200 with the session.  A falsy (empty) title falls back to
"New Chat". -/
def createSessionNetlify (st : NetlifyState) (title : String) :
    NetlifyState × ChatSession :=
  let id := toString st.nextId
  let session : ChatSession :=
    ⟨id, "default-user", if title = "" then "New Chat" else title⟩
  (⟨mapSet st.conversations id [], st.nextId + 1⟩, session)

/-- GET /api/chat/sessions in the serverless variant: always answers the
empty array, whatever the state holds. -/
def listSessionsNetlify (_st : NetlifyState) : List ChatSession := []

/-- GET /api/chat/sessions/:sessionId/messages in the serverless variant:
when the conversation is missing or empty it is seeded with one assistant
greeting message which is stored and answered; otherwise the stored
messages are answered.  There is no session-existence check. -/
def getMessagesNetlify (st : NetlifyState) (sessionId : String) :
    NetlifyState × List Message :=
  let seed : NetlifyState × List Message :=
    let g : Message := ⟨toString st.nextId, sessionId, "assistant", greetingContent⟩
    (⟨mapSet st.conversations sessionId [g], st.nextId + 1⟩, [g])
  match mapGet st.conversations sessionId with
  | none => seed
  | some msgs => if msgs.length = 0 then seed else (st, msgs)

/-- The assistant text chosen by the serverless message-posting handler:
the not-configured short circuit, then the status mapping on a response,
then the thrown-error mapping. -/
def netlifyAiText (apiKey : String) (upstream : UpstreamResult) : String :=
  if apiKey = "" ∨ apiKey.length < 10 then notConfiguredNetlifyMsg
  else
    match upstream with
    | .response status content? =>
      if respOk status then
        match content? with
        | some c => if c = "" then emptyResponseNetlifyMsg else c
        | none => emptyResponseNetlifyMsg
      else mapStatusNetlify status
    | .fetchFailed .abort => tookTooLongNetlifyMsg
    | .fetchFailed .fetchFailure => connectNetlifyMsg
    | .fetchFailed .other => unexpectedNetlifyMsg

/-- Result of the serverless message-posting route. -/
structure NetlifyPostOutcome where
  state : NetlifyState
  status : Nat
  body : Option ChatResponse
  sentRequest : Option (List PerplexityMessage)
  deriving Repr, DecidableEq

/-- POST /api/chat/sessions/:sessionId/messages in the serverless variant:
400 when content is falsy (empty); otherwise the user message is pushed
onto the conversation (created on the fly when absent — no 404), the
upstream window is built from the updated list with `slice(-8)`, and the
chosen assistant text is pushed and answered with 200. -/
def postMessageNetlify (apiKey : String) (upstream : UpstreamResult)
    (st : NetlifyState) (sessionId content : String) : NetlifyPostOutcome :=
  if content = "" then ⟨st, 400, none, none⟩
  else
    let sessionMessages := (mapGet st.conversations sessionId).getD []
    let userMsg : Message := ⟨toString st.nextId, sessionId, "user", content⟩
    let msgs1 := sessionMessages ++ [userMsg]
    let text := netlifyAiText apiKey upstream
    let aiMsg : Message := ⟨toString (st.nextId + 1), sessionId, "assistant", text⟩
    let msgs2 := msgs1 ++ [aiMsg]
    ⟨⟨mapSet st.conversations sessionId msgs2, st.nextId + 2⟩, 200,
      some ⟨text, sessionId⟩,
      if apiKey = "" ∨ apiKey.length < 10 then none
      else some (buildPerplexityMessages 8 msgs1)⟩

/-- DELETE /api/chat/sessions/:sessionId in the serverless variant:
unconditionally removes the map entry and answers 200 (no existence
check, never 404). -/
def deleteSessionNetlify (st : NetlifyState) (sessionId : String) :
    NetlifyState × Nat :=
  (⟨mapDelete st.conversations sessionId, st.nextId⟩, 200)

/-- The role and content of the most recently stored message of the
primary storage, for stating persistence facts. -/
def lastStored (st : Storage) : Option (String × String) :=
  st.messages.getLast?.map (fun m => (m.role, m.content))

/-- A sample session and storage used by concrete counterexamples and
witnesses: one existing session with id "s1" and no messages. -/
def sampleSession : ChatSession := ⟨"s1", "default-user", "New Chat"⟩

/-- Storage holding exactly `sampleSession` and no messages. -/
def sampleStorage : Storage := ⟨[sampleSession], [], 0⟩

/-! ### Helper lemmas about the serverless conversations map -/

/-- Looking a key up right after setting it yields the value just set. -/
theorem mapGet_mapSet_self (m : List (String × List Message)) (k : String)
    (v : List Message) : mapGet (mapSet m k v) k = some v := by
  induction m with
  | nil => simp [mapSet, mapGet]
  | cons p rest ih =>
    obtain ⟨k2, v2⟩ := p
    by_cases h : k2 = k
    · simp [mapSet, mapGet, h]
    · simp [mapSet, mapGet, h, ih]

/-- Deleting a key removes it from the map. -/
theorem mapGet_mapDelete_self (m : List (String × List Message)) (k : String) :
    mapGet (mapDelete m k) k = none := by
  induction m with
  | nil => simp [mapDelete, mapGet]
  | cons p rest ih =>
    obtain ⟨k2, v2⟩ := p
    by_cases h : k2 = k
    · simp [mapDelete, h, ih]
    · simp [mapDelete, mapGet, h, ih]

/-! ### C1 — empty message content -/

/-- C1 counterexample: posting empty content to the existing session "s1"
of the primary variant answers 500, not the 400 the claim states (the zod
throw is caught by the handler's generic catch). -/
theorem c1_counterexample :
    (postMessagePrimary none (.fetchFailed .other) sampleStorage "s1" "").status = 500 ∧
    ¬ (postMessagePrimary none (.fetchFailed .other) sampleStorage "s1" "").status = 400 := by
  decide

/-- C1 (amended): posting a message with empty content persists nothing
and attempts no upstream call in either variant, and fails — with 400 in
the serverless variant, but with 500 in the primary variant, where the
validation throw is caught by the generic handler. -/
theorem c1_empty_content_rejected (apiKey : Option String) (nApiKey : String)
    (upstream : UpstreamResult) (st : Storage) (nst : NetlifyState)
    (sessionId nsid : String) :
    (postMessagePrimary apiKey upstream st sessionId "").status = 500 ∧
    (postMessagePrimary apiKey upstream st sessionId "").storage = st ∧
    (postMessagePrimary apiKey upstream st sessionId "").sentRequest = none ∧
    (postMessageNetlify nApiKey upstream nst nsid "").status = 400 ∧
    (postMessageNetlify nApiKey upstream nst nsid "").state = nst ∧
    (postMessageNetlify nApiKey upstream nst nsid "").sentRequest = none := by
  refine ⟨?_, ?_, ?_, ?_, ?_, ?_⟩ <;> simp [postMessagePrimary, postMessageNetlify]

/-! ### C2 — lazy greeting seeding -/

/-- C2 counterexample: the primary variant seeds no greeting — reading the
message list of the existing empty session "s1" answers 200 with the empty
list, not a single greeting message. -/
theorem c2_counterexample :
    getMessagesPrimary sampleStorage "s1" = (200, some []) ∧
    ¬ getMessagesPrimary sampleStorage "s1" =
        (200, some [⟨"0", "s1", "assistant", greetingContent⟩]) := by
  decide

/-- C2 (amended): in the serverless variant, a session whose conversation
is absent or empty is seeded on first read with exactly one assistant
message holding the fixed greeting, and the read is idempotent — a second
read returns the identical state and the identical single message.  The
primary variant performs no seeding: reading an existing session with
zero stored messages answers 200 with the empty list. -/
theorem c2_greeting_seed (st : NetlifyState) (st2 : Storage) (s : ChatSession)
    (sessionId : String)
    (h : mapGet st.conversations sessionId = some [] ∨
         mapGet st.conversations sessionId = none)
    (hs : st2.getChatSession sessionId = some s)
    (hempty : st2.getMessagesBySessionId sessionId = []) :
    (getMessagesNetlify st sessionId).2.length = 1 ∧
    (getMessagesNetlify st sessionId).2.map (fun m => (m.role, m.content))
      = [("assistant", greetingContent)] ∧
    getMessagesNetlify (getMessagesNetlify st sessionId).1 sessionId
      = getMessagesNetlify st sessionId ∧
    getMessagesPrimary st2 sessionId = (200, some []) := by
  rcases h with h | h <;>
    refine ⟨?_, ?_, ?_, ?_⟩ <;>
      simp [getMessagesNetlify, getMessagesPrimary, h, hs, hempty, mapGet_mapSet_self]

/-- C2 witness: the concrete seeding behaviour on the empty serverless
state and the concrete no-seeding behaviour on `sampleStorage`. -/
theorem c2_greeting_seed_witness :
    (getMessagesNetlify ⟨[], 0⟩ "s1").2.length = 1 ∧
    (getMessagesNetlify ⟨[], 0⟩ "s1").2.map (fun m => (m.role, m.content))
      = [("assistant", greetingContent)] ∧
    getMessagesNetlify (getMessagesNetlify ⟨[], 0⟩ "s1").1 "s1"
      = getMessagesNetlify ⟨[], 0⟩ "s1" ∧
    getMessagesPrimary sampleStorage "s1" = (200, some []) :=
  c2_greeting_seed ⟨[], 0⟩ sampleStorage sampleSession "s1"
    (Or.inr rfl) (by decide) (by decide)

/-! ### C3 — posting to a nonexistent session -/

/-- C3 counterexample: the serverless variant has no session-existence
check — posting to the nonexistent id "ghost" answers 200 (not 404) and
persists a two-message conversation under that id. -/
theorem c3_counterexample :
    (postMessageNetlify "" (.fetchFailed .other) ⟨[], 0⟩ "ghost" "hi").status = 200 ∧
    ¬ (postMessageNetlify "" (.fetchFailed .other) ⟨[], 0⟩ "ghost" "hi").status = 404 ∧
    (mapGet (postMessageNetlify "" (.fetchFailed .other) ⟨[], 0⟩ "ghost" "hi").state.conversations
        "ghost").map List.length = some 2 := by
  decide

/-- C3 (amended): posting to a nonexistent session fails with 404 and
persists nothing in the primary variant; the serverless variant performs
no existence check — it silently creates the conversation (user message
plus assistant reply) and answers 200. -/
theorem c3_post_nonexistent (apiKey : Option String) (nApiKey : String)
    (upstream : UpstreamResult) (st : Storage) (nst : NetlifyState)
    (sessionId content : String) (hc : ¬ content = "")
    (hs : st.getChatSession sessionId = none)
    (hn : mapGet nst.conversations sessionId = none) :
    (postMessagePrimary apiKey upstream st sessionId content).status = 404 ∧
    (postMessagePrimary apiKey upstream st sessionId content).storage = st ∧
    (postMessagePrimary apiKey upstream st sessionId content).body = none ∧
    (postMessageNetlify nApiKey upstream nst sessionId content).status = 200 ∧
    (mapGet (postMessageNetlify nApiKey upstream nst sessionId content).state.conversations
        sessionId).map List.length = some 2 := by
  refine ⟨?_, ?_, ?_, ?_, ?_⟩ <;>
    simp [postMessagePrimary, postMessageNetlify, hc, hs, hn, mapGet_mapSet_self]

/-- C3 witness: concrete instantiation at the nonexistent id "ghost". -/
theorem c3_post_nonexistent_witness :
    (postMessagePrimary none (.fetchFailed .other) sampleStorage "ghost" "hi").status = 404 ∧
    (postMessagePrimary none (.fetchFailed .other) sampleStorage "ghost" "hi").storage = sampleStorage ∧
    (postMessagePrimary none (.fetchFailed .other) sampleStorage "ghost" "hi").body = none ∧
    (postMessageNetlify "" (.fetchFailed .other) ⟨[], 0⟩ "ghost" "hi").status = 200 ∧
    (mapGet (postMessageNetlify "" (.fetchFailed .other) ⟨[], 0⟩ "ghost" "hi").state.conversations
        "ghost").map List.length = some 2 :=
  c3_post_nonexistent none "" (.fetchFailed .other) sampleStorage ⟨[], 0⟩
    "ghost" "hi" (by decide) (by decide) (by decide)

/-! ### C4 — upstream history window -/

/-- C4: for every stored history of length L the request array built for
the upstream API has exactly 1 + min L N entries — the fixed system prompt
followed by the trailing N history messages in their stored
(chronological) order — with N = 10 in the primary variant and N = 8 in
the serverless variant. -/
theorem c4_window (history : List Message) :
    (buildPerplexityMessages 10 history).length = 1 + min history.length 10 ∧
    (buildPerplexityMessages 8 history).length = 1 + min history.length 8 ∧
    (buildPerplexityMessages 10 history).head? = some ⟨"system", systemPrompt⟩ ∧
    (buildPerplexityMessages 8 history).head? = some ⟨"system", systemPrompt⟩ ∧
    List.IsSuffix (sliceLast 10 history) history ∧
    List.IsSuffix (sliceLast 8 history) history ∧
    (buildPerplexityMessages 10 history).tail
      = (sliceLast 10 history).map (fun m => ⟨m.role, m.content⟩) ∧
    (buildPerplexityMessages 8 history).tail
      = (sliceLast 8 history).map (fun m => ⟨m.role, m.content⟩) := by
  refine ⟨?_, ?_, rfl, rfl, List.drop_suffix _ _, List.drop_suffix _ _, rfl, rfl⟩ <;>
    simp [buildPerplexityMessages, sliceLast] <;> omega

/-! ### C5 — upstream status-code mapping -/

/-- C5 counterexample: in the serverless variant an upstream 400 is stored
and answered as the generic knowledge-base string — the same string as any
other unrecognised status — not a distinct malformed-request string. -/
theorem c5_counterexample :
    (postMessageNetlify "0123456789" (.response 400 none) ⟨[("s1", [])], 0⟩ "s1" "hi").body
      = some ⟨genericNetlifyMsg, "s1"⟩ ∧
    mapStatusNetlify 400 = mapStatusNetlify 418 ∧
    ¬ mapStatusNetlify 400 = badRequestMsg := by
  refine ⟨by decide, rfl, by decide⟩

/-- C5 (amended): on every non-2xx upstream status both variants store the
mapped string as an assistant message and answer it in the body; 401 and
429 have distinct fixed strings in both variants, the primary variant also
distinguishes 400, but the serverless variant maps 400 — like every other
unrecognised status — to the generic knowledge-base string; on 401 both
variants store the authentication string, never the generic fallback. -/
theorem c5_status_mapping (status : Nat) (apiK : String) (st : Storage)
    (nst : NetlifyState) (s : ChatSession) (sessionId nsid content : String)
    (h2xx : respOk status = false) (hc : ¬ content = "")
    (hk : ¬ (apiK = "" ∨ apiK.length < 10))
    (hs : st.getChatSession sessionId = some s) :
    (postMessagePrimary (some apiK) (.response status none) st sessionId content).body
      = some ⟨mapStatusPrimary status, sessionId⟩ ∧
    lastStored (postMessagePrimary (some apiK) (.response status none) st sessionId content).storage
      = some ("assistant", mapStatusPrimary status) ∧
    (postMessageNetlify apiK (.response status none) nst nsid content).body
      = some ⟨mapStatusNetlify status, nsid⟩ ∧
    ((mapGet (postMessageNetlify apiK (.response status none) nst nsid content).state.conversations
        nsid).bind List.getLast?).map (fun m => (m.role, m.content))
      = some ("assistant", mapStatusNetlify status) ∧
    mapStatusPrimary 401 = authErrorMsg ∧
    mapStatusPrimary 429 = rateLimitMsg ∧
    mapStatusPrimary 400 = badRequestMsg ∧
    (¬ status = 401 → ¬ status = 429 → ¬ status = 400 →
      mapStatusPrimary status = genericUnavailableMsg) ∧
    mapStatusNetlify 401 = authErrorNetlifyMsg ∧
    mapStatusNetlify 429 = rateLimitNetlifyMsg ∧
    (¬ status = 401 → ¬ status = 429 → mapStatusNetlify status = genericNetlifyMsg) ∧
    mapStatusNetlify 400 = genericNetlifyMsg ∧
    ¬ authErrorMsg = genericUnavailableMsg ∧
    ¬ rateLimitMsg = genericUnavailableMsg ∧
    ¬ badRequestMsg = genericUnavailableMsg ∧
    ¬ authErrorNetlifyMsg = genericNetlifyMsg ∧
    ¬ rateLimitNetlifyMsg = genericNetlifyMsg := by
  refine ⟨?_, ?_, ?_, ?_, rfl, rfl, rfl, ?_, rfl, rfl, ?_, rfl,
    by decide, by decide, by decide, by decide, by decide⟩
  · simp [postMessagePrimary, primaryAiText, hc, hs, h2xx]
  · simp [postMessagePrimary, primaryAiText, hc, hs, h2xx, lastStored,
      Storage.createMessage]
  · simp [postMessageNetlify, netlifyAiText, hc, hk, h2xx]
  · simp [postMessageNetlify, netlifyAiText, hc, hk, h2xx, mapGet_mapSet_self]
  · intro h1 h2 h3
    simp [mapStatusPrimary, h1, h2, h3]
  · intro h1 h2
    simp [mapStatusNetlify, h1, h2]

/-- C5 witness: the mapping exercised at the concrete status 404 (an
unrecognised non-2xx status) with concrete states. -/
theorem c5_status_mapping_witness :
    (postMessagePrimary (some "0123456789") (.response 404 none) sampleStorage "s1" "hi").body
      = some ⟨mapStatusPrimary 404, "s1"⟩ ∧
    lastStored (postMessagePrimary (some "0123456789") (.response 404 none) sampleStorage "s1" "hi").storage
      = some ("assistant", mapStatusPrimary 404) ∧
    (postMessageNetlify "0123456789" (.response 404 none) ⟨[], 0⟩ "n1" "hi").body
      = some ⟨mapStatusNetlify 404, "n1"⟩ ∧
    mapStatusPrimary 404 = genericUnavailableMsg ∧
    mapStatusNetlify 404 = genericNetlifyMsg := by
  have h := c5_status_mapping 404 "0123456789" sampleStorage ⟨[], 0⟩
    sampleSession "s1" "n1" "hi" (by decide) (by decide) (by decide) (by decide)
  exact ⟨h.1, h.2.1, h.2.2.1,
    h.2.2.2.2.2.2.2.1 (by decide) (by decide) (by decide),
    h.2.2.2.2.2.2.2.2.2.2.1 (by decide) (by decide)⟩

/-! ### C6 — upstream timeout -/

/-- C6: when the upstream fetch is aborted by the configured timeout both
variants answer a normal 200 response (nothing is thrown to the HTTP
caller) whose body carries the fixed took-too-long string, and that string
is stored as an assistant message; the configured timeouts are 30000 ms
(primary) and 25000 ms (serverless), inside the 25-30 second bound. -/
theorem c6_timeout_abort (apiK : String) (st : Storage) (nst : NetlifyState)
    (s : ChatSession) (sessionId nsid content : String)
    (hc : ¬ content = "") (hk : ¬ (apiK = "" ∨ apiK.length < 10))
    (hs : st.getChatSession sessionId = some s) :
    (postMessagePrimary (some apiK) (.fetchFailed .abort) st sessionId content).status = 200 ∧
    (postMessagePrimary (some apiK) (.fetchFailed .abort) st sessionId content).body
      = some ⟨tookTooLongMsg, sessionId⟩ ∧
    lastStored (postMessagePrimary (some apiK) (.fetchFailed .abort) st sessionId content).storage
      = some ("assistant", tookTooLongMsg) ∧
    (postMessageNetlify apiK (.fetchFailed .abort) nst nsid content).status = 200 ∧
    (postMessageNetlify apiK (.fetchFailed .abort) nst nsid content).body
      = some ⟨tookTooLongNetlifyMsg, nsid⟩ ∧
    ((mapGet (postMessageNetlify apiK (.fetchFailed .abort) nst nsid content).state.conversations
        nsid).bind List.getLast?).map (fun m => (m.role, m.content))
      = some ("assistant", tookTooLongNetlifyMsg) ∧
    25000 ≤ timeoutMsPrimary ∧ timeoutMsPrimary ≤ 30000 ∧
    25000 ≤ timeoutMsNetlify ∧ timeoutMsNetlify ≤ 30000 := by
  refine ⟨?_, ?_, ?_, ?_, ?_, ?_, by decide, by decide, by decide, by decide⟩ <;>
    simp [postMessagePrimary, postMessageNetlify, primaryAiText, netlifyAiText,
      hc, hk, hs, lastStored, Storage.createMessage, mapGet_mapSet_self]

/-- C6 witness: the timeout path at concrete states and inputs. -/
theorem c6_timeout_abort_witness :
    (postMessagePrimary (some "0123456789") (.fetchFailed .abort) sampleStorage "s1" "hi").status = 200 ∧
    (postMessagePrimary (some "0123456789") (.fetchFailed .abort) sampleStorage "s1" "hi").body
      = some ⟨tookTooLongMsg, "s1"⟩ ∧
    lastStored (postMessagePrimary (some "0123456789") (.fetchFailed .abort) sampleStorage "s1" "hi").storage
      = some ("assistant", tookTooLongMsg) ∧
    (postMessageNetlify "0123456789" (.fetchFailed .abort) ⟨[], 0⟩ "n1" "hi").status = 200 ∧
    (postMessageNetlify "0123456789" (.fetchFailed .abort) ⟨[], 0⟩ "n1" "hi").body
      = some ⟨tookTooLongNetlifyMsg, "n1"⟩ ∧
    ((mapGet (postMessageNetlify "0123456789" (.fetchFailed .abort) ⟨[], 0⟩ "n1" "hi").state.conversations
        "n1").bind List.getLast?).map (fun m => (m.role, m.content))
      = some ("assistant", tookTooLongNetlifyMsg) ∧
    25000 ≤ timeoutMsPrimary ∧ timeoutMsPrimary ≤ 30000 ∧
    25000 ≤ timeoutMsNetlify ∧ timeoutMsNetlify ≤ 30000 :=
  c6_timeout_abort "0123456789" sampleStorage ⟨[], 0⟩ sampleSession
    "s1" "n1" "hi" (by decide) (by decide) (by decide)

/-! ### C7 — missing credential short circuit -/

/-- C7: when no upstream credential is configured, neither variant
attempts a network call: the fixed service-not-configured string is stored
as an assistant message and answered in a 200 response. -/
theorem c7_not_configured (upstream : UpstreamResult) (st : Storage)
    (nst : NetlifyState) (s : ChatSession) (sessionId nsid content : String)
    (hc : ¬ content = "") (hs : st.getChatSession sessionId = some s) :
    (postMessagePrimary none upstream st sessionId content).sentRequest = none ∧
    (postMessagePrimary none upstream st sessionId content).status = 200 ∧
    (postMessagePrimary none upstream st sessionId content).body
      = some ⟨notConfiguredMsg, sessionId⟩ ∧
    lastStored (postMessagePrimary none upstream st sessionId content).storage
      = some ("assistant", notConfiguredMsg) ∧
    (postMessageNetlify "" upstream nst nsid content).sentRequest = none ∧
    (postMessageNetlify "" upstream nst nsid content).status = 200 ∧
    (postMessageNetlify "" upstream nst nsid content).body
      = some ⟨notConfiguredNetlifyMsg, nsid⟩ ∧
    ((mapGet (postMessageNetlify "" upstream nst nsid content).state.conversations
        nsid).bind List.getLast?).map (fun m => (m.role, m.content))
      = some ("assistant", notConfiguredNetlifyMsg) := by
  refine ⟨?_, ?_, ?_, ?_, ?_, ?_, ?_, ?_⟩ <;>
    simp [postMessagePrimary, postMessageNetlify, primaryAiText, netlifyAiText,
      hc, hs, lastStored, Storage.createMessage, mapGet_mapSet_self]

/-- C7 witness: the short circuit at concrete states and inputs. -/
theorem c7_not_configured_witness :
    (postMessagePrimary none (.response 200 (some "yo")) sampleStorage "s1" "hi").sentRequest = none ∧
    (postMessagePrimary none (.response 200 (some "yo")) sampleStorage "s1" "hi").status = 200 ∧
    (postMessagePrimary none (.response 200 (some "yo")) sampleStorage "s1" "hi").body
      = some ⟨notConfiguredMsg, "s1"⟩ ∧
    lastStored (postMessagePrimary none (.response 200 (some "yo")) sampleStorage "s1" "hi").storage
      = some ("assistant", notConfiguredMsg) ∧
    (postMessageNetlify "" (.response 200 (some "yo")) ⟨[], 0⟩ "n1" "hi").sentRequest = none ∧
    (postMessageNetlify "" (.response 200 (some "yo")) ⟨[], 0⟩ "n1" "hi").status = 200 ∧
    (postMessageNetlify "" (.response 200 (some "yo")) ⟨[], 0⟩ "n1" "hi").body
      = some ⟨notConfiguredNetlifyMsg, "n1"⟩ ∧
    ((mapGet (postMessageNetlify "" (.response 200 (some "yo")) ⟨[], 0⟩ "n1" "hi").state.conversations
        "n1").bind List.getLast?).map (fun m => (m.role, m.content))
      = some ("assistant", notConfiguredNetlifyMsg) :=
  c7_not_configured (.response 200 (some "yo")) sampleStorage ⟨[], 0⟩
    sampleSession "s1" "n1" "hi" (by decide) (by decide)

/-! ### C8 — session deletion -/

/-- C8 counterexample: the serverless variant never answers 404 on delete
— deleting the nonexistent session "ghost" answers 200 — and after a
delete the message list is not empty/NotFound: reading it seeds and
answers a fresh single greeting. -/
theorem c8_counterexample :
    (deleteSessionNetlify ⟨[], 0⟩ "ghost").2 = 200 ∧
    ¬ (deleteSessionNetlify ⟨[], 0⟩ "ghost").2 = 404 ∧
    (getMessagesNetlify (deleteSessionNetlify
        ⟨[("s1", [⟨"7", "s1", "user", "old"⟩])], 8⟩ "s1").1 "s1").2.length = 1 ∧
    ¬ (getMessagesNetlify (deleteSessionNetlify
        ⟨[("s1", [⟨"7", "s1", "user", "old"⟩])], 8⟩ "s1").1 "s1").2 = [] := by
  decide

/-- C8 (amended): in the primary variant deleteSession answers 404 when
the session is absent, and otherwise removes the session together with all
its messages, after which reading the message list answers 404 (NotFound)
— never any old message.  The serverless variant answers 200
unconditionally (no NotFound even for an absent id) and removes the
conversation, but a subsequent message read seeds and answers a fresh
single greeting rather than the empty list or NotFound — so no old message
is ever returned there either. -/
theorem c8_delete_session (st stAbsent : Storage) (nst : NetlifyState)
    (s : ChatSession) (sessionId : String)
    (hs : st.getChatSession sessionId = some s)
    (habs : stAbsent.getChatSession sessionId = none) :
    (deleteSessionPrimary st sessionId).2 = 200 ∧
    ((deleteSessionPrimary st sessionId).1).getMessagesBySessionId sessionId = [] ∧
    getMessagesPrimary (deleteSessionPrimary st sessionId).1 sessionId = (404, none) ∧
    deleteSessionPrimary stAbsent sessionId = (stAbsent, 404) ∧
    (deleteSessionNetlify nst sessionId).2 = 200 ∧
    mapGet (deleteSessionNetlify nst sessionId).1.conversations sessionId = none ∧
    (getMessagesNetlify (deleteSessionNetlify nst sessionId).1 sessionId).2.length = 1 ∧
    (getMessagesNetlify (deleteSessionNetlify nst sessionId).1 sessionId).2.map
      (fun m => (m.role, m.content)) = [("assistant", greetingContent)] := by
  have hs2 : st.sessions.find? (fun x => x.id == sessionId) = some s := hs
  have habs2 : stAbsent.sessions.find? (fun x => x.id == sessionId) = none := habs
  have hfalse : ∀ l : List ChatSession, l.find? (fun _ => false) = none := by
    intro l
    simp [List.find?_eq_none]
  refine ⟨?_, ?_, ?_, ?_, rfl, mapGet_mapDelete_self _ _, ?_, ?_⟩
  · simp [deleteSessionPrimary, hs]
  · simp [deleteSessionPrimary, hs, Storage.deleteChatSession,
      Storage.getMessagesBySessionId, List.filter_filter]
  · simp [getMessagesPrimary, deleteSessionPrimary, hs2, Storage.deleteChatSession,
      Storage.getChatSession, Storage.getMessagesBySessionId, List.filter_filter, hfalse]
  · simp [deleteSessionPrimary, habs]
  · simp [getMessagesNetlify, deleteSessionNetlify, mapGet_mapDelete_self]
  · simp [getMessagesNetlify, deleteSessionNetlify, mapGet_mapDelete_self]

/-- C8 witness: deletion exercised on `sampleStorage` (session "s1"
present), on a storage without "s1", and on a concrete serverless state
holding an old message under "s1". -/
theorem c8_delete_session_witness :
    (deleteSessionPrimary sampleStorage "s1").2 = 200 ∧
    ((deleteSessionPrimary sampleStorage "s1").1).getMessagesBySessionId "s1" = [] ∧
    getMessagesPrimary (deleteSessionPrimary sampleStorage "s1").1 "s1" = (404, none) ∧
    deleteSessionPrimary (⟨[], [], 0⟩ : Storage) "s1" = (⟨[], [], 0⟩, 404) ∧
    (deleteSessionNetlify ⟨[("s1", [⟨"7", "s1", "user", "old"⟩])], 8⟩ "s1").2 = 200 ∧
    mapGet (deleteSessionNetlify ⟨[("s1", [⟨"7", "s1", "user", "old"⟩])], 8⟩ "s1").1.conversations
      "s1" = none ∧
    (getMessagesNetlify (deleteSessionNetlify
        ⟨[("s1", [⟨"7", "s1", "user", "old"⟩])], 8⟩ "s1").1 "s1").2.length = 1 ∧
    (getMessagesNetlify (deleteSessionNetlify
        ⟨[("s1", [⟨"7", "s1", "user", "old"⟩])], 8⟩ "s1").1 "s1").2.map
      (fun m => (m.role, m.content)) = [("assistant", greetingContent)] :=
  c8_delete_session sampleStorage ⟨[], [], 0⟩
    ⟨[("s1", [⟨"7", "s1", "user", "old"⟩])], 8⟩ sampleSession "s1"
    (by decide) (by decide)

/-! ### C9 — answered text equals persisted text -/

/-- C9: whenever a message post answers 200 with a ChatResponse body, the
body's message field equals the content of the assistant message persisted
by that same call — on the upstream-success path and on every mapped
failure path alike, in both variants. -/
theorem c9_response_matches_store (apiKey : Option String) (nApiKey : String)
    (upstream : UpstreamResult) (st : Storage) (nst : NetlifyState)
    (sessionId nsid content ncontent : String) (r rn : ChatResponse)
    (h : (postMessagePrimary apiKey upstream st sessionId content).body = some r)
    (hn : (postMessageNetlify nApiKey upstream nst nsid ncontent).body = some rn) :
    (postMessagePrimary apiKey upstream st sessionId content).status = 200 ∧
    lastStored (postMessagePrimary apiKey upstream st sessionId content).storage
      = some ("assistant", r.message) ∧
    (postMessageNetlify nApiKey upstream nst nsid ncontent).status = 200 ∧
    ((mapGet (postMessageNetlify nApiKey upstream nst nsid ncontent).state.conversations
        nsid).bind List.getLast?).map (fun m => (m.role, m.content))
      = some ("assistant", rn.message) := by
  by_cases hc : content = ""
  · simp [postMessagePrimary, hc] at h
  by_cases hnc : ncontent = ""
  · simp [postMessageNetlify, hnc] at hn
  cases hsess : st.getChatSession sessionId with
  | none => simp [postMessagePrimary, hc, hsess] at h
  | some s =>
    have hbody : (postMessagePrimary apiKey upstream st sessionId content).body
        = some ⟨primaryAiText apiKey upstream, sessionId⟩ := by
      simp [postMessagePrimary, hc, hsess]
    rw [hbody] at h
    injection h with h
    have hnbody : (postMessageNetlify nApiKey upstream nst nsid ncontent).body
        = some ⟨netlifyAiText nApiKey upstream, nsid⟩ := by
      simp [postMessageNetlify, hnc]
    rw [hnbody] at hn
    injection hn with hn
    subst h
    subst hn
    refine ⟨?_, ?_, ?_, ?_⟩ <;>
      simp [postMessagePrimary, postMessageNetlify, hc, hnc, hsess,
        lastStored, Storage.createMessage, mapGet_mapSet_self]

/-- C9 witness: a successful upstream completion at concrete states — the
answered text "Naruto is great!" is exactly the persisted assistant
content in both variants. -/
theorem c9_response_matches_store_witness :
    (postMessagePrimary (some "0123456789") (.response 200 (some "Naruto is great!"))
        sampleStorage "s1" "hi").status = 200 ∧
    lastStored (postMessagePrimary (some "0123456789") (.response 200 (some "Naruto is great!"))
        sampleStorage "s1" "hi").storage
      = some ("assistant", (⟨"Naruto is great!", "s1"⟩ : ChatResponse).message) ∧
    (postMessageNetlify "0123456789" (.response 200 (some "Naruto is great!"))
        ⟨[], 0⟩ "n1" "hi").status = 200 ∧
    ((mapGet (postMessageNetlify "0123456789" (.response 200 (some "Naruto is great!"))
        ⟨[], 0⟩ "n1" "hi").state.conversations "n1").bind List.getLast?).map
      (fun m => (m.role, m.content))
      = some ("assistant", (⟨"Naruto is great!", "n1"⟩ : ChatResponse).message) :=
  c9_response_matches_store (some "0123456789") "0123456789"
    (.response 200 (some "Naruto is great!")) sampleStorage ⟨[], 0⟩
    "s1" "n1" "hi" "hi" ⟨"Naruto is great!", "s1"⟩ ⟨"Naruto is great!", "n1"⟩
    (by decide) (by decide)

/-! ### C10 — serverless sessions listing -/

/-- C10: the serverless sessions-listing route answers the empty array in
every state — even immediately after a successful session creation, which
does record the fresh (empty) conversation in the state — so sessions
created there are never observable through the listing endpoint. -/
theorem c10_sessions_never_listed (nst : NetlifyState) (title : String) :
    listSessionsNetlify nst = [] ∧
    listSessionsNetlify (createSessionNetlify nst title).1 = [] ∧
    mapGet (createSessionNetlify nst title).1.conversations
      (createSessionNetlify nst title).2.id = some [] := by
  refine ⟨rfl, rfl, ?_⟩
  simp [createSessionNetlify, mapGet_mapSet_self]

end Aniverse
